import Mathlib

/-!
Shallow embedding of the PII tokenization pipeline:
a proxy client (vgs_client), a network facade (tokenization_api) and a
batch driver (tokenize_pii_vgs).  JSON values are modelled by an inductive
type; the external HTTP collaborators are modelled as functions from the
request payload to an abstract HTTP response (status, raw body text, and
the body's JSON decoding when it is valid JSON).  Python exceptions are
modelled by an error inductive and fallible code returns Except.
-/

namespace VGS

/-- A JSON-compatible value: null, boolean, number, string, array or object.
Numbers are modelled as rationals; objects as association lists (JSON
decoding produces unique keys, so first-key lookup agrees with Python
dict lookup). -/
inductive Json where
  | null : Json
  | bool (b : Bool) : Json
  | num (q : Rat) : Json
  | str (s : String) : Json
  | arr (elems : List Json) : Json
  | obj (fields : List (String × Json)) : Json

/-- An HTTP response from an external collaborator: its status code, raw
body text, and the decoded JSON body when the body is valid JSON
(`none` models a body that is not valid JSON). -/
structure HttpResponse where
  status : Nat
  text : String
  jsonBody : Option Json

/-- Errors raised by the pipeline, following the spec's taxonomy mapped
onto the Python exceptions actually raised by the code:
configError models the RuntimeError / json.JSONDecodeError raised in
from_env; networkError models httpx.HTTPError (transport failure or
raise_for_status); decodeError models the ValueError raised when a
response body is not JSON; shapeError models the ValueError raised when
the response JSON has an unexpected structure; countMismatch models the
RuntimeError raised by the batch driver on a length mismatch;
valueError and typeError and attributeError model the corresponding
Python builtin exceptions. -/
inductive PyError where
  | configError (msg : String)
  | networkError (msg : String)
  | decodeError (msg : String)
  | shapeError (msg : String)
  | countMismatch (got : Nat) (expected : Nat)
  | valueError (msg : String)
  | typeError (msg : String)
  | attributeError (msg : String)
deriving DecidableEq

/-- The str() rendering of an error, as interpolated into facade details. -/
def errText : PyError → String
  | .configError m => m
  | .networkError m => m
  | .decodeError m => m
  | .shapeError m => m
  | .countMismatch got expected =>
      "Tokenization API returned " ++ toString got ++ " records, expected " ++ toString expected
  | .valueError m => m
  | .typeError m => m
  | .attributeError m => m

/-- Python str.rstrip with a slash argument: drop trailing slash characters. -/
def rstripSlashes (s : String) : String :=
  String.mk ((s.data.reverse.dropWhile (fun c => c == '/')).reverse)

/-- Python str.startswith: pre is a prefix of s. -/
def startswith (s pre : String) : Bool :=
  s.data.take pre.data.length == pre.data

/-- The VGSClient state set up by VGSClient.__init__ in vgs_client.py. -/
structure VGSClient where
  base : String
  path : String
  headers : List (String × String)
  timeout : Rat
deriving DecidableEq

/-- VGSClient.__init__: strips trailing slashes from the proxy URL, forces
the route path to start with a slash, and defaults absent extra headers
to the empty mapping. -/
def VGSClient.init (proxy_url : String) (route_path : String)
    (extra_headers : Option (List (String × String))) (timeout : Rat) : VGSClient :=
  { base := rstripSlashes proxy_url
  , path := if startswith route_path "/" then route_path else "/" ++ route_path
  , headers := extra_headers.getD []
  , timeout := timeout }

/-- VGSClient._endpoint. -/
def VGSClient.endpoint (c : VGSClient) : String := c.base ++ c.path

/-- The external proxy, modelled as a function from the request
(target URL, request headers, JSON payload) to the HTTP response. -/
abbrev Network := String → List (String × String) → Json → HttpResponse

/-- httpx response success test: raise_for_status passes exactly on 2xx. -/
def isSuccess (status : Nat) : Prop := 200 ≤ status ∧ status < 300

instance (status : Nat) : Decidable (isSuccess status) := by
  unfold isSuccess; infer_instance

/-- VGSClient.tokenize_json: posts the payload to the endpoint with the
Content-Type header merged with the configured extra headers, raises a
network error on a non-success status, and raises a decode error whose
message carries the first 200 characters of the raw body when the body
is not valid JSON. -/
def tokenize_json (c : VGSClient) (net : Network) (payload : Json) : Except PyError Json :=
  let resp := net c.endpoint (("Content-Type", "application/json") :: c.headers) payload
  if isSuccess resp.status then
    match resp.jsonBody with
    | some j => .ok j
    | none => .error (.decodeError ("VGS response was not JSON: " ++ resp.text.take 200))
  else
    .error (.networkError ("HTTP status error " ++ toString resp.status))

/-- VGSClient.tokenize_records: wraps the records under batch_key when
batch_key is truthy (given and non-empty), calls tokenize_json, unwraps
a truthy batch_key from the response mapping, and requires the result to
be a list.  No length check is performed. -/
def tokenize_records (c : VGSClient) (net : Network) (records : List Json)
    (batch_key : Option String) : Except PyError (List Json) :=
  let payload : Json :=
    match batch_key with
    | some k => if k == "" then .arr records else .obj [(k, .arr records)]
    | none => .arr records
  match tokenize_json c net payload with
  | .error e => .error e
  | .ok transformed =>
    let outRes : Except PyError Json :=
      match batch_key with
      | some k =>
        if k == "" then .ok transformed
        else
          match transformed with
          | .obj fields =>
            match fields.lookup k with
            | some v => .ok v
            | none => .error (.shapeError "Unexpected VGS response shape for batch_key mode")
          | _ => .error (.shapeError "Unexpected VGS response shape for batch_key mode")
      | none => .ok transformed
    match outRes with
    | .error e => .error e
    | .ok (.arr xs) => .ok xs
    | .ok _ => .error (.shapeError "VGS response is not a list of records")

/-- The headers expression of from_env in vgs_client.py: json.loads on
the headers variable when that is truthy, else None.  The process
environment is a partial map from variable names to strings; json.loads
restricted to JSON objects of strings, and float(), are passed in as
the Python library functions they are (returning none exactly on the
inputs they reject).  The json.JSONDecodeError message varies with its
input in Python and is modelled by a fixed description here. -/
def loadHeaders (jsonLoads : String → Option (List (String × String))) :
    Option String → Except PyError (Option (List (String × String)))
  | none => .ok none
  | some h =>
    if h == "" then .ok none
    else
      match jsonLoads h with
      | some o => .ok (some o)
      | none => .error (.configError "VGS_HEADERS_JSON is not valid JSON")

/-- from_env in vgs_client.py, continued: the environment lookups, the
required-variable check and the defaults, ending in VGSClient.init. -/
def from_env (env : String → Option String)
    (jsonLoads : String → Option (List (String × String)))
    (pyFloat : String → Option Rat) : Except PyError VGSClient :=
  match env "VGS_PROXY_URL" with
  | none => .error (.configError "VGS_PROXY_URL is not set")
  | some proxy =>
    if proxy == "" then .error (.configError "VGS_PROXY_URL is not set")
    else
      match loadHeaders jsonLoads (env "VGS_HEADERS_JSON") with
      | .error e => .error e
      | .ok headers =>
        match pyFloat ((env "VGS_TIMEOUT").getD "30") with
        | none => .error (.valueError "could not convert string to float")
        | some timeout =>
          .ok (VGSClient.init proxy ((env "VGS_ROUTE_PATH").getD "/post") headers timeout)

/-- The request body of POST /tokenize in tokenization_api.py. -/
structure TokenizeRequest where
  records : List Json
  batch_key : Option String

/-- The observable outcome of a facade endpoint call: a 200 response
carrying records, or an HTTPException with a status code and detail. -/
inductive ApiResponse where
  | ok (records : List Json)
  | httpException (status : Nat) (detail : String)

/-- The GET /health endpoint: a constant, with no downstream call. -/
def health : List (String × String) := [("status", "ok")]

/-- The POST /tokenize endpoint: builds the client from the environment
(500 on failure), delegates to tokenize_records (502 on failure), and
echoes the transformed records on success.  Failure details carry the
original error text. -/
def tokenize (env : String → Option String)
    (jsonLoads : String → Option (List (String × String)))
    (pyFloat : String → Option Rat)
    (net : Network) (req : TokenizeRequest) : ApiResponse :=
  match from_env env jsonLoads pyFloat with
  | .error e => .httpException 500 ("VGS client init failed: " ++ errText e)
  | .ok client =>
    match tokenize_records client net req.records req.batch_key with
    | .error e => .httpException 502 ("VGS tokenization failed: " ++ errText e)
    | .ok out => .ok out

/-- A row of the tabular input: an ordered mapping from column name to
value, as produced by DataFrame.to_dict with records orientation. -/
abbrev Row := List (String × Json)

/-- Python len() on a JSON-ish value: defined on arrays, strings and
objects; none models a TypeError on unsized values. -/
def pyLen : Json → Option Nat
  | .arr xs => some xs.length
  | .str s => some s.length
  | .obj fs => some fs.length
  | _ => none

/-- Python iteration over a sized JSON-ish value, as used by
list.extend: an array yields its elements, a string its one-character
strings, an object its keys. -/
def pyElems : Json → List Json
  | .arr xs => xs
  | .str s => s.data.map (fun ch => Json.str (String.mk [ch]))
  | .obj fs => fs.map (fun p => Json.str p.1)
  | _ => []

/-- post_tokenize in tokenize_pii_vgs.py: posts the wrapper object
(records plus a batch_key entry when that is truthy) to the API,
raises on a non-success status or a non-JSON body, and reads the
response's records key with an empty-list default.  The tokenization
API is modelled as a function from the JSON request body to the HTTP
response. -/
def post_tokenize (api : Json → HttpResponse) (records : List Json)
    (batch_key : Option String) : Except PyError Json :=
  let payload : Json :=
    match batch_key with
    | some k =>
      if k == "" then .obj [("records", .arr records)]
      else .obj [("records", .arr records), ("batch_key", .str k)]
    | none => .obj [("records", .arr records)]
  let resp := api payload
  if isSuccess resp.status then
    match resp.jsonBody with
    | none => .error (.decodeError ("response body is not JSON: " ++ resp.text.take 200))
    | some (.obj fields) => .ok ((fields.lookup "records").getD (.arr []))
    | some _ => .error (.attributeError "this value has no attribute get")
  else
    .error (.networkError ("HTTP status error " ++ toString resp.status))

/-- The batch loop of main in tokenize_pii_vgs.py for a positive batch
size b + 1: take the next chunk of at most b + 1 rows, post it, raise a
count mismatch when the returned length differs from the chunk's row
count, and otherwise extend the output and continue with the remaining
rows. -/
def mainLoop (api : Json → HttpResponse) (b : Nat) : List Row → Except PyError (List Json)
  | [] => .ok []
  | r :: rest =>
    let recs : List Json := (r :: rest.take b).map Json.obj
    match post_tokenize api recs none with
    | .error e => .error e
    | .ok toks =>
      match pyLen toks with
      | none => .error (.typeError "object of this type has no len")
      | some n =>
        if n ≠ recs.length then .error (.countMismatch n recs.length)
        else
          match mainLoop api b (rest.drop b) with
          | .error e => .error e
          | .ok tail => .ok (pyElems toks ++ tail)
termination_by l => l.length
decreasing_by simp [List.length_drop]; omega

/-- main in tokenize_pii_vgs.py: iterates over the input rows in steps
of batch_size and writes the concatenated output only when every batch
succeeded (an ok result is the written output; an error is an abort
with no output artifact).  A zero batch size is the ValueError that
range raises on a zero step. -/
def main (api : Json → HttpResponse) (batch_size : Nat) (df : List Row) :
    Except PyError (List Json) :=
  match batch_size with
  | 0 => .error (.valueError "range arg 3 must not be zero")
  | b + 1 => mainLoop api b df

/-- The record batches for which main issues a tokenize call, in order:
mirrors mainLoop, stopping where the loop stops. -/
def mainCallsLoop (api : Json → HttpResponse) (b : Nat) : List Row → List (List Json)
  | [] => []
  | r :: rest =>
    let recs : List Json := (r :: rest.take b).map Json.obj
    recs ::
      (match post_tokenize api recs none with
       | .error _ => []
       | .ok toks =>
         match pyLen toks with
         | none => []
         | some n =>
           if n ≠ recs.length then []
           else mainCallsLoop api b (rest.drop b))
termination_by l => l.length
decreasing_by simp [List.length_drop]; omega

/-- The sequence of tokenize calls issued by main. -/
def mainCalls (api : Json → HttpResponse) (batch_size : Nat) (df : List Row) :
    List (List Json) :=
  match batch_size with
  | 0 => []
  | b + 1 => mainCallsLoop api b df

/-- Contiguous chunks of at most b + 1 elements, in order. -/
def chunksOfAux (b : Nat) : List α → List (List α)
  | [] => []
  | x :: xs => (x :: xs.take b) :: chunksOfAux b (xs.drop b)
termination_by l => l.length
decreasing_by simp [List.length_drop]; omega

/-- The contiguous batches of at most bs elements that the driver's
range loop visits, in order (empty for the zero step the loop rejects). -/
def chunksOf (bs : Nat) (l : List α) : List (List α) :=
  match bs with
  | 0 => []
  | b + 1 => chunksOfAux b l

/-- The record list the tokenization API returns for one row chunk
(empty when the call fails or returns a non-list). -/
def respOf (api : Json → HttpResponse) (c : List Row) : List Json :=
  match post_tokenize api (c.map Json.obj) none with
  | .ok toks => pyElems toks
  | .error _ => []

/-- An upstream proxy that echoes its request payload unchanged as a
successful JSON response. -/
def echoNet : Network := fun _ _ payload => { status := 200, text := "", jsonBody := some payload }

/-- A tokenization API that echoes its request body unchanged as a
successful JSON response. -/
def echoApi : Json → HttpResponse := fun payload =>
  { status := 200, text := "", jsonBody := some payload }

/-- A concrete client for instantiating the theorems. -/
def sampleClient : VGSClient := VGSClient.init "https://tnt.example" "/post" none 30

/-- An upstream proxy whose response is always the mapping from the
empty key to a one-element sequence. -/
def keyedRespNet : Network := fun _ _ _ =>
  { status := 200, text := "", jsonBody := some (Json.obj [("", Json.arr [Json.null])]) }

/-- An upstream proxy whose response body is never valid JSON. -/
def badNet : Network := fun _ _ _ =>
  { status := 200, text := "this is not JSON at all", jsonBody := none }

/-- An upstream proxy whose response is always a mapping carrying a
records key with a one-element sequence. -/
def keyedOkNet : Network := fun _ _ _ =>
  { status := 200, text := "", jsonBody := some (Json.obj [("records", Json.arr [Json.str "tok"])]) }

/-- A concrete environment holding only the proxy URL. -/
def envW : String → Option String := fun v =>
  if v = "VGS_PROXY_URL" then some "https://x/" else none

/-- A concrete json.loads that rejects every input. -/
def jlW : String → Option (List (String × String)) := fun _ => none

/-- A concrete float() defined exactly on the default timeout string. -/
def pfW : String → Option Rat := fun s => if s = "30" then some 30 else none

/-- A tokenization API that always answers with an empty records list. -/
def emptyRecApi : Json → HttpResponse := fun _ =>
  { status := 200, text := "", jsonBody := some (Json.obj [("records", Json.arr [])]) }

/-- A five-row concrete input. -/
def rows5 : List Row :=
  [[("id", Json.num 1)], [("id", Json.num 2)], [("id", Json.num 3)], [("id", Json.num 4)], [("id", Json.num 5)]]

/-- A tokenization API whose valid JSON responses lack the records key. -/
def noRecApi : Json → HttpResponse := fun _ =>
  { status := 200, text := "", jsonBody := some (Json.obj [("x", Json.arr [Json.null])]) }

/-- Every chunk concatenation gives back the original list. -/
theorem chunksOfAux_join (b : Nat) (l : List α) : (chunksOfAux b l).flatten = l := by
  induction l using chunksOfAux.induct b with
  | case1 => simp [chunksOfAux]
  | case2 x xs ih => simp [chunksOfAux, ih]

/-- Every chunk is nonempty and holds at most b + 1 elements. -/
theorem chunksOfAux_sizes (b : Nat) (l : List α) :
    ∀ c ∈ chunksOfAux b l, 0 < c.length ∧ c.length ≤ b + 1 := by
  induction l using chunksOfAux.induct b with
  | case1 => simp [chunksOfAux]
  | case2 x xs ih =>
    intro c hc
    rw [chunksOfAux, List.mem_cons] at hc
    rcases hc with hc1 | hc1
    · subst hc1
      simp [List.length_take]
    · exact ih c hc1

/-- When every chunk's call returns a sequence of matching length, the
batch loop succeeds with the concatenation of the responses and issues
exactly one call per chunk, in order. -/
theorem mainLoop_ok (api : Json → HttpResponse) (b : Nat) (l : List Row) :
    (∀ c ∈ chunksOfAux b l, ∃ xs, post_tokenize api (c.map Json.obj) none = .ok (Json.arr xs) ∧ xs.length = c.length) →
    mainLoop api b l = .ok (((chunksOfAux b l).map (respOf api)).flatten)
    ∧ mainCallsLoop api b l = (chunksOfAux b l).map (List.map Json.obj) := by
  induction l using chunksOfAux.induct b with
  | case1 =>
    intro _
    simp [chunksOfAux, mainLoop, mainCallsLoop]
  | case2 x xs ih =>
    intro h
    obtain ⟨ys, hok, hlen⟩ := h (x :: xs.take b) (by rw [chunksOfAux]; exact List.mem_cons_self _ _)
    have hok' := hok
    simp only [List.map_cons, List.map_take] at hok'
    have hrest : ∀ c ∈ chunksOfAux b (xs.drop b),
        ∃ xs2, post_tokenize api (c.map Json.obj) none = .ok (Json.arr xs2) ∧ xs2.length = c.length :=
      fun c hc => h c (by rw [chunksOfAux]; exact List.mem_cons_of_mem _ hc)
    obtain ⟨ih1, ih2⟩ := ih hrest
    constructor
    · simp only [mainLoop, hok, pyLen, hlen, List.length_map, ne_eq]
      simp only [chunksOfAux, List.map_cons, List.flatten_cons, ih1]
      simp [respOf, hok, hok', pyElems]
    · simp only [mainCallsLoop, hok, pyLen, hlen, List.length_map, ne_eq]
      simp only [chunksOfAux, List.map_cons, ih2]
      simp

/-- When the chunks split into a prefix whose calls all return sequences
of matching length and a first offending chunk whose call returns a
sized value of the wrong length, the batch loop aborts with exactly the
count mismatch of that chunk. -/
theorem mainLoop_mismatch (api : Json → HttpResponse) (b : Nat) :
    ∀ (good : List (List Row)) (l : List Row) (bad : List Row) (rest' : List (List Row)) (toks : Json) (m : Nat),
    chunksOfAux b l = good ++ bad :: rest' →
    (∀ c ∈ good, ∃ xs, post_tokenize api (c.map Json.obj) none = .ok (Json.arr xs) ∧ xs.length = c.length) →
    post_tokenize api (bad.map Json.obj) none = .ok toks →
    pyLen toks = some m → m ≠ bad.length →
    mainLoop api b l = .error (.countMismatch m bad.length) := by
  intro good
  induction good with
  | nil =>
    intro l bad rest' toks m hsplit hgood hbad hlen hne
    cases l with
    | nil => rw [chunksOfAux] at hsplit; exact absurd hsplit (by simp)
    | cons x xs =>
      rw [chunksOfAux] at hsplit
      simp only [List.nil_append, List.cons.injEq] at hsplit
      obtain ⟨hbadeq, _⟩ := hsplit
      subst hbadeq
      simp only [mainLoop, hbad, hlen, List.length_map, ne_eq]
      rw [if_pos (by simpa using hne)]
  | cons g good' ih =>
    intro l bad rest' toks m hsplit hgood hbad hlen hne
    cases l with
    | nil => rw [chunksOfAux] at hsplit; exact absurd hsplit (by simp)
    | cons x xs =>
      rw [chunksOfAux] at hsplit
      simp only [List.cons_append, List.cons.injEq] at hsplit
      obtain ⟨hg, hrest⟩ := hsplit
      obtain ⟨ys, hok, hleng⟩ := hgood g (List.mem_cons_self _ _)
      have hgood' : ∀ c ∈ good', ∃ xs, post_tokenize api (c.map Json.obj) none = .ok (Json.arr xs) ∧ xs.length = c.length :=
        fun c hc => hgood c (List.mem_cons_of_mem _ hc)
      subst hg
      simp only [mainLoop, hok, pyLen, hleng, List.length_map, ne_eq]
      rw [ih (xs.drop b) bad rest' toks m hrest hgood' hbad hlen hne]
      simp

/-- The headers expression never raises the missing-proxy-URL error. -/
theorem loadHeaders_ne_proxyErr (jsonLoads : String → Option (List (String × String)))
    (o : Option String) :
    loadHeaders jsonLoads o ≠ .error (.configError "VGS_PROXY_URL is not set") := by
  cases o with
  | none => simp [loadHeaders]
  | some h =>
    simp only [loadHeaders]
    split
    · simp
    · cases hj : jsonLoads h with
      | some o2 => simp
      | none => simp

/-- C1, counterexample.  The claim quantifies over every given batch_key,
but the code selects the keyed path by truthiness: with the given (yet
falsy) batch_key of the empty string and an upstream whose response is a
mapping containing that key with a sequence value, the claim predicts
extraction of that sequence, while the code sends the bare sequence,
parses the response in bare mode and fails with the not-a-list
ShapeError. -/
theorem claim1_counterexample :
    tokenize_records sampleClient keyedRespNet [] (some "")
      = .error (.shapeError "VGS response is not a list of records")
    ∧ (keyedRespNet sampleClient.endpoint (("Content-Type", "application/json") :: sampleClient.headers)
        (Json.obj [("", Json.arr [])])).jsonBody
      = some (Json.obj [("", Json.arr [Json.null])])
    ∧ tokenize_records sampleClient keyedRespNet [] (some "") ≠ .ok [Json.null] :=
  ⟨rfl, rfl, fun h => Except.noConfusion h⟩

/-- C1, amended: for every record sequence and every given NON-EMPTY
batch_key, tokenize_records sends the payload with the records wrapped
under batch_key, fails with ShapeError unless the response is a mapping
containing that key, extracts the value at that key, and fails with
ShapeError if that value is not a sequence; with batch_key absent the
bare sequence is sent and the response itself is used.  In both modes
the returned sequence xs is arbitrary: no length check against the
input is performed. -/
theorem claim1_tokenize_records_shape (c : VGSClient) (net : Network) (records : List Json)
    (k : String) (hk : ¬ k = "") (respK respB : HttpResponse)
    (hrespK : respK = net c.endpoint (("Content-Type", "application/json") :: c.headers) (Json.obj [(k, Json.arr records)]))
    (hrespB : respB = net c.endpoint (("Content-Type", "application/json") :: c.headers) (Json.arr records)) :
    (isSuccess respK.status → ∀ fields xs, respK.jsonBody = some (Json.obj fields) →
        fields.lookup k = some (Json.arr xs) →
        tokenize_records c net records (some k) = .ok xs)
    ∧ (isSuccess respK.status → ∀ fields, respK.jsonBody = some (Json.obj fields) →
        fields.lookup k = none →
        tokenize_records c net records (some k) = .error (.shapeError "Unexpected VGS response shape for batch_key mode"))
    ∧ (isSuccess respK.status → ∀ t, respK.jsonBody = some t → (∀ fields, t ≠ Json.obj fields) →
        tokenize_records c net records (some k) = .error (.shapeError "Unexpected VGS response shape for batch_key mode"))
    ∧ (isSuccess respK.status → ∀ fields v, respK.jsonBody = some (Json.obj fields) →
        fields.lookup k = some v → (∀ xs, v ≠ Json.arr xs) →
        tokenize_records c net records (some k) = .error (.shapeError "VGS response is not a list of records"))
    ∧ (isSuccess respB.status → ∀ xs, respB.jsonBody = some (Json.arr xs) →
        tokenize_records c net records none = .ok xs)
    ∧ (isSuccess respB.status → ∀ t, respB.jsonBody = some t → (∀ xs, t ≠ Json.arr xs) →
        tokenize_records c net records none = .error (.shapeError "VGS response is not a list of records")) := by
  subst hrespK
  subst hrespB
  have hkb : (k == "") = false := by simpa using hk
  refine ⟨?_, ?_, ?_, ?_, ?_, ?_⟩
  · intro hs fields xs hb hl
    simp only [tokenize_records, tokenize_json, hkb, Bool.false_eq_true, if_false]
    rw [if_pos hs, hb]
    simp [hl]
  · intro hs fields hb hl
    simp only [tokenize_records, tokenize_json, hkb, Bool.false_eq_true, if_false]
    rw [if_pos hs, hb]
    simp [hl]
  · intro hs t hb ht
    simp only [tokenize_records, tokenize_json, hkb, Bool.false_eq_true, if_false]
    rw [if_pos hs, hb]
    cases t with
    | obj fields => exact absurd rfl (ht fields)
    | null => rfl
    | bool b2 => rfl
    | num q => rfl
    | str s2 => rfl
    | arr es => rfl
  · intro hs fields v hb hl hv
    simp only [tokenize_records, tokenize_json, hkb, Bool.false_eq_true, if_false]
    rw [if_pos hs, hb]
    simp only [hl]
  · intro hs xs hb
    simp only [tokenize_records, tokenize_json]
    rw [if_pos hs, hb]
  · intro hs t hb ht
    simp only [tokenize_records, tokenize_json]
    rw [if_pos hs, hb]
    cases t with
    | arr es => exact absurd rfl (ht es)
    | null => rfl
    | bool b2 => rfl
    | num q => rfl
    | str s2 => rfl
    | obj fs => rfl

/-- C1, witness: a keyed call against a concrete upstream returning the
mapping with the records key extracts the sequence at that key. -/
theorem claim1_witness :
    tokenize_records sampleClient keyedOkNet [Json.null] (some "records") = .ok [Json.str "tok"] := by
  have h := (claim1_tokenize_records_shape sampleClient keyedOkNet [Json.null] "records"
    (by decide) _ _ rfl rfl).1
  exact h (by simp [keyedOkNet, isSuccess]) [("records", Json.arr [Json.str "tok"])] [Json.str "tok"] rfl rfl

/-- C2: when the chunks of the input split into a prefix whose calls all
return sequences of matching length and a first offending batch whose
call returns a sized value of the wrong length, the batch driver fails
with exactly that batch's count mismatch and produces no output value
at all (an ok result is the only way an output artifact is written). -/
theorem claim2_count_mismatch_aborts (api : Json → HttpResponse) (bs : Nat) (rows : List Row)
    (good : List (List Row)) (bad : List Row) (rest' : List (List Row)) (toks : Json) (m : Nat)
    (hbs : 0 < bs)
    (hsplit : chunksOf bs rows = good ++ bad :: rest')
    (hgood : ∀ c ∈ good, ∃ xs, post_tokenize api (c.map Json.obj) none = .ok (Json.arr xs) ∧ xs.length = c.length)
    (hbad : post_tokenize api (bad.map Json.obj) none = .ok toks)
    (hlen : pyLen toks = some m)
    (hne : m ≠ bad.length) :
    main api bs rows = .error (.countMismatch m bad.length)
    ∧ ∀ out, main api bs rows ≠ .ok out := by
  obtain ⟨b, rfl⟩ : ∃ b, bs = b + 1 := ⟨bs - 1, by omega⟩
  have h := mainLoop_mismatch api b good rows bad rest' toks m hsplit hgood hbad hlen hne
  refine ⟨h, ?_⟩
  intro out hcon
  rw [show main api (b + 1) rows = mainLoop api b rows from rfl, h] at hcon
  exact Except.noConfusion hcon

/-- C2, witness: a one-row run whose API always answers with an empty
records list aborts with a count mismatch of 0 against 1. -/
theorem claim2_witness :
    main emptyRecApi 1 [[("a", Json.null)]] = .error (.countMismatch 0 1) := by
  exact (claim2_count_mismatch_aborts emptyRecApi 1 [[("a", Json.null)]] [] [[("a", Json.null)]] []
    (Json.arr []) 0 (by norm_num) (by simp [chunksOf, chunksOfAux]) (by simp) rfl rfl (by decide)).1

/-- C3: for every positive batch size the driver's chunks are contiguous,
nonempty, of at most batch_size rows, and concatenate back to the input
in order; when every batch call returns a sequence of matching length
the driver issues exactly one call per chunk in order and succeeds with
the concatenation of the per-batch responses in batch order; and five
rows at batch size 2 give exactly the three chunks of sizes 2, 2, 1. -/
theorem claim3_batching (api : Json → HttpResponse) (bs : Nat) (rows : List Row) (hbs : 0 < bs) :
    (chunksOf bs rows).flatten = rows
    ∧ (∀ c ∈ chunksOf bs rows, 0 < c.length ∧ c.length ≤ bs)
    ∧ ((∀ c ∈ chunksOf bs rows, ∃ xs, post_tokenize api (c.map Json.obj) none = .ok (Json.arr xs) ∧ xs.length = c.length) →
        mainCalls api bs rows = (chunksOf bs rows).map (List.map Json.obj)
        ∧ main api bs rows = .ok (((chunksOf bs rows).map (respOf api)).flatten))
    ∧ (∀ r1 r2 r3 r4 r5 : Row, (chunksOf 2 [r1, r2, r3, r4, r5]).map List.length = [2, 2, 1]) := by
  obtain ⟨b, rfl⟩ : ∃ b, bs = b + 1 := ⟨bs - 1, by omega⟩
  refine ⟨chunksOfAux_join b rows, chunksOfAux_sizes b rows, ?_, ?_⟩
  · intro h
    obtain ⟨h1, h2⟩ := mainLoop_ok api b rows h
    exact ⟨h2, h1⟩
  · intro r1 r2 r3 r4 r5
    simp [chunksOf, chunksOfAux]

/-- C3, witness: five concrete rows at batch size 2 against an echoing
API give exactly three calls of sizes 2, 2, 1 and the concatenated
output in order. -/
theorem claim3_witness :
    mainCalls echoApi 2 rows5 =
      [[Json.obj [("id", Json.num 1)], Json.obj [("id", Json.num 2)]],
       [Json.obj [("id", Json.num 3)], Json.obj [("id", Json.num 4)]],
       [Json.obj [("id", Json.num 5)]]]
    ∧ main echoApi 2 rows5 =
      .ok [Json.obj [("id", Json.num 1)], Json.obj [("id", Json.num 2)], Json.obj [("id", Json.num 3)],
           Json.obj [("id", Json.num 4)], Json.obj [("id", Json.num 5)]] := by
  have h := (claim3_batching echoApi 2 rows5 (by norm_num)).2.2.1 ?_
  · obtain ⟨hc, hm⟩ := h
    constructor
    · rw [hc]
      simp [chunksOf, chunksOfAux, rows5]
    · rw [hm]
      simp [chunksOf, chunksOfAux, rows5, respOf, echoApi, post_tokenize, pyElems, isSuccess]
  · intro c hc
    simp only [chunksOf, rows5] at hc
    simp only [chunksOfAux, List.take, List.drop] at hc
    simp only [List.mem_cons, List.not_mem_nil, or_false] at hc
    rcases hc with rfl | rfl | rfl
    · exact ⟨_, rfl, rfl⟩
    · exact ⟨_, rfl, rfl⟩
    · exact ⟨_, rfl, rfl⟩

/-- C4: the facade answers 500 with the original error text when client
construction from the environment fails, 502 with the original error
text when the delegated tokenize_records call fails, and 200 echoing
the transformed record sequence on success. -/
theorem claim4_facade_statuses (env : String → Option String)
    (jsonLoads : String → Option (List (String × String)))
    (pyFloat : String → Option Rat) (net : Network) (req : TokenizeRequest) :
    (∀ e, from_env env jsonLoads pyFloat = .error e →
      tokenize env jsonLoads pyFloat net req = .httpException 500 ("VGS client init failed: " ++ errText e)
      ∧ ∃ pre, "VGS client init failed: " ++ errText e = pre ++ errText e)
    ∧ (∀ client e, from_env env jsonLoads pyFloat = .ok client →
        tokenize_records client net req.records req.batch_key = .error e →
        tokenize env jsonLoads pyFloat net req = .httpException 502 ("VGS tokenization failed: " ++ errText e)
        ∧ ∃ pre, "VGS tokenization failed: " ++ errText e = pre ++ errText e)
    ∧ (∀ client out, from_env env jsonLoads pyFloat = .ok client →
        tokenize_records client net req.records req.batch_key = .ok out →
        tokenize env jsonLoads pyFloat net req = .ok out) := by
  refine ⟨?_, ?_, ?_⟩
  · intro e he
    refine ⟨?_, "VGS client init failed: ", rfl⟩
    simp only [tokenize, he]
  · intro client e hc ht
    refine ⟨?_, "VGS tokenization failed: ", rfl⟩
    simp only [tokenize, hc, ht]
  · intro client out hc ht
    simp only [tokenize, hc, ht]

/-- C4, witness: with an empty environment the facade answers 500 and
the detail carries the missing-proxy-URL error text. -/
theorem claim4_witness :
    tokenize (fun _ => none) (fun _ => none) (fun _ => none) echoNet { records := [], batch_key := none }
      = .httpException 500 "VGS client init failed: VGS_PROXY_URL is not set" := by
  exact ((claim4_facade_statuses (fun _ => none) (fun _ => none) (fun _ => none) echoNet
    { records := [], batch_key := none }).1 (.configError "VGS_PROXY_URL is not set") rfl).1

/-- C5: construction from the environment fails with the missing-URL
ConfigError exactly when the proxy-URL variable is absent or empty;
with the URL present and the optional variables absent it yields the
configuration with route path "/post", empty headers and timeout 30;
every successful construction has its route path normalized to start
with a slash; and a present, non-empty, malformed headers variable
fails with ConfigError. -/
theorem claim5_from_env (env : String → Option String)
    (jsonLoads : String → Option (List (String × String)))
    (pyFloat : String → Option Rat) :
    ((env "VGS_PROXY_URL" = none ∨ env "VGS_PROXY_URL" = some "") ↔
      from_env env jsonLoads pyFloat = .error (.configError "VGS_PROXY_URL is not set"))
    ∧ (∀ p, env "VGS_PROXY_URL" = some p → ¬ p = "" →
        env "VGS_ROUTE_PATH" = none → env "VGS_HEADERS_JSON" = none → env "VGS_TIMEOUT" = none →
        pyFloat "30" = some 30 →
        from_env env jsonLoads pyFloat =
          .ok { base := rstripSlashes p, path := "/post", headers := [], timeout := 30 })
    ∧ (∀ client, from_env env jsonLoads pyFloat = .ok client →
        client.path = (if startswith ((env "VGS_ROUTE_PATH").getD "/post") "/"
            then (env "VGS_ROUTE_PATH").getD "/post"
            else "/" ++ (env "VGS_ROUTE_PATH").getD "/post")
        ∧ startswith client.path "/" = true)
    ∧ (∀ p h, env "VGS_PROXY_URL" = some p → ¬ p = "" →
        env "VGS_HEADERS_JSON" = some h → ¬ h = "" → jsonLoads h = none →
        from_env env jsonLoads pyFloat = .error (.configError "VGS_HEADERS_JSON is not valid JSON")) := by
  refine ⟨⟨?_, ?_⟩, ?_, ?_, ?_⟩
  · rintro (h | h)
    · simp [from_env, h]
    · simp [from_env, h]
  · intro hfe
    cases henv : env "VGS_PROXY_URL" with
    | none => exact Or.inl rfl
    | some p =>
      by_cases hp : p = ""
      · exact Or.inr (by rw [hp])
      · exfalso
        have hpb : (p == "") = false := by simpa using hp
        simp only [from_env, henv, hpb, Bool.false_eq_true, if_false] at hfe
        cases hlh : loadHeaders jsonLoads (env "VGS_HEADERS_JSON") with
        | error e =>
          rw [hlh] at hfe
          simp only at hfe
          injection hfe with h1
          subst h1
          exact loadHeaders_ne_proxyErr jsonLoads _ hlh
        | ok headers =>
          rw [hlh] at hfe
          cases hpf : pyFloat ((env "VGS_TIMEOUT").getD "30") with
          | none => rw [hpf] at hfe; simp at hfe
          | some t => rw [hpf] at hfe; simp at hfe
  · intro p hU hp hR hH hT hF
    have hpb : (p == "") = false := by simpa using hp
    have hsw : startswith "/post" "/" = true := by decide
    simp [from_env, hU, hR, hH, hT, hF, hpb, loadHeaders, VGSClient.init, hsw]
  · intro client hfe
    cases henv : env "VGS_PROXY_URL" with
    | none => rw [from_env, henv] at hfe; exact absurd hfe (by simp)
    | some p =>
      by_cases hp : p = ""
      · rw [from_env, henv] at hfe; simp [hp] at hfe
      · have hpb : (p == "") = false := by simpa using hp
        rw [from_env, henv] at hfe
        simp only [hpb, Bool.false_eq_true, if_false] at hfe
        cases hlh : loadHeaders jsonLoads (env "VGS_HEADERS_JSON") with
        | error e => rw [hlh] at hfe; simp at hfe
        | ok headers =>
          rw [hlh] at hfe
          cases hpf : pyFloat ((env "VGS_TIMEOUT").getD "30") with
          | none => rw [hpf] at hfe; simp at hfe
          | some t =>
            rw [hpf] at hfe
            simp only [Except.ok.injEq] at hfe
            subst hfe
            constructor
            · simp [VGSClient.init]
            · simp only [VGSClient.init]
              cases hc : startswith ((env "VGS_ROUTE_PATH").getD "/post") "/" with
              | true => simp [hc]
              | false => simp only [hc, Bool.false_eq_true, if_false]; rfl
  · intro p h hU hp hH hh hjl
    have hpb : (p == "") = false := by simpa using hp
    have hhb : (h == "") = false := by simpa using hh
    simp [from_env, hU, hpb, loadHeaders, hH, hhb, hjl]

set_option maxRecDepth 10000 in
/-- C5, witness: a concrete environment holding only a proxy URL with a
trailing slash yields the stripped base and all the defaults. -/
theorem claim5_witness :
    from_env envW jlW pfW = .ok { base := "https://x", path := "/post", headers := [], timeout := 30 } := by
  exact (claim5_from_env envW jlW pfW).2.1 "https://x/" rfl (by decide) rfl rfl rfl rfl

/-- C6: on a successful status whose body is not valid JSON,
tokenize_json fails with a DecodeError whose message is the fixed text
followed by the first 200 characters of the raw response body. -/
theorem claim6_decode_error (c : VGSClient) (net : Network) (payload : Json)
    (hs : isSuccess (net c.endpoint (("Content-Type", "application/json") :: c.headers) payload).status)
    (hb : (net c.endpoint (("Content-Type", "application/json") :: c.headers) payload).jsonBody = none) :
    tokenize_json c net payload =
      .error (.decodeError ("VGS response was not JSON: " ++
        (net c.endpoint (("Content-Type", "application/json") :: c.headers) payload).text.take 200))
    ∧ ∃ pre, "VGS response was not JSON: " ++
        (net c.endpoint (("Content-Type", "application/json") :: c.headers) payload).text.take 200
        = pre ++ (net c.endpoint (("Content-Type", "application/json") :: c.headers) payload).text.take 200 := by
  refine ⟨?_, "VGS response was not JSON: ", rfl⟩
  unfold tokenize_json
  rw [if_pos hs, hb]

set_option maxRecDepth 10000 in
/-- C6, witness: a concrete non-JSON body surfaces whole inside the
DecodeError message. -/
theorem claim6_witness :
    tokenize_json sampleClient badNet (Json.arr []) =
      .error (.decodeError "VGS response was not JSON: this is not JSON at all") := by
  have h := (claim6_decode_error sampleClient badNet (Json.arr [])
    (by simp [badNet, isSuccess]) rfl).1
  exact h

/-- C7: the health endpoint is the constant ok mapping; as a closed
constant it depends on no environment, network or client state and
makes no downstream call. -/
theorem claim7_health : health = [("status", "ok")] := rfl

/-- C8: tokenize_records performs no local transformation: in bare mode
it returns exactly the sequence the upstream decoded to, in keyed mode
exactly the sequence at the batch key; against an echoing upstream any
record sequence round-trips unchanged, in particular the empty one. -/
theorem claim8_passthrough (c : VGSClient) (net : Network) (records xs : List Json) :
    (isSuccess (net c.endpoint (("Content-Type", "application/json") :: c.headers) (Json.arr records)).status →
      (net c.endpoint (("Content-Type", "application/json") :: c.headers) (Json.arr records)).jsonBody = some (Json.arr xs) →
      tokenize_records c net records none = .ok xs)
    ∧ (∀ k fields, ¬ k = "" →
        isSuccess (net c.endpoint (("Content-Type", "application/json") :: c.headers) (Json.obj [(k, Json.arr records)])).status →
        (net c.endpoint (("Content-Type", "application/json") :: c.headers) (Json.obj [(k, Json.arr records)])).jsonBody = some (Json.obj fields) →
        fields.lookup k = some (Json.arr xs) →
        tokenize_records c net records (some k) = .ok xs)
    ∧ tokenize_records c echoNet records none = .ok records
    ∧ tokenize_records c echoNet records (some "records") = .ok records
    ∧ tokenize_records c echoNet [] none = .ok [] := by
  refine ⟨?_, ?_, rfl, rfl, rfl⟩
  · intro hs hb
    simp only [tokenize_records, tokenize_json]
    rw [if_pos hs, hb]
  · intro k fields hk hs hb hl
    have hkb : (k == "") = false := by simpa using hk
    simp only [tokenize_records, tokenize_json, hkb, Bool.false_eq_true, if_false]
    rw [if_pos hs, hb]
    simp [hl]

/-- C8, witness: a concrete one-record sequence round-trips unchanged
through the echoing upstream. -/
theorem claim8_witness :
    tokenize_records sampleClient echoNet [Json.obj [("name", Json.str "alice")]] none
      = .ok [Json.obj [("name", Json.str "alice")]] :=
  (claim8_passthrough sampleClient echoNet [Json.obj [("name", Json.str "alice")]] []).2.2.1

/-- C9: a given but empty batch_key is falsy in Python, so the call
behaves identically to one with no batch_key at all: same payload,
same bare-mode response parsing, same result. -/
theorem claim9_empty_batch_key (c : VGSClient) (net : Network) (records : List Json) :
    tokenize_records c net records (some "") = tokenize_records c net records none := rfl

/-- C10: a successful valid-JSON response lacking the records key makes
post_tokenize return the empty list (the mapping-get default) rather
than a shape error; consequently the driver reports a count mismatch of
0 against the first batch's size on every nonempty input, and accepts
an empty input silently (no batch, no call, empty output). -/
theorem claim10_missing_records_key (api : Json → HttpResponse) (fields : List (String × Json))
    (records : List Json) (batch_key : Option String) (bs : Nat) (rows : List Row)
    (hapi : ∀ p, api p = { status := 200, text := "", jsonBody := some (Json.obj fields) })
    (hnk : fields.lookup "records" = none)
    (hbs : 0 < bs) :
    post_tokenize api records batch_key = .ok (Json.arr [])
    ∧ (rows ≠ [] → main api bs rows = .error (.countMismatch 0 (min bs rows.length)))
    ∧ main api bs [] = .ok [] := by
  have hpt : ∀ recs bk, post_tokenize api recs bk = .ok (Json.arr []) := by
    intro recs bk
    simp only [post_tokenize, hapi]
    simp [isSuccess, hnk]
  obtain ⟨b, rfl⟩ : ∃ b, bs = b + 1 := ⟨bs - 1, by omega⟩
  refine ⟨hpt records batch_key, ?_, ?_⟩
  · intro hne
    cases rows with
    | nil => exact absurd rfl hne
    | cons r rest =>
      show mainLoop api b (r :: rest) = _
      simp only [mainLoop, hpt, pyLen]
      rw [if_pos (by simp [List.length_take])]
      congr 1
      simp [List.length_take, Nat.succ_min_succ]
  · show mainLoop api b [] = .ok []
    simp [mainLoop]

/-- C10, witness: a concrete API lacking the records key yields the
empty list from post_tokenize and a 0-versus-1 count mismatch on a
one-row run. -/
theorem claim10_witness :
    post_tokenize noRecApi [Json.null] none = .ok (Json.arr [])
    ∧ main noRecApi 1 [[("a", Json.null)]] = .error (.countMismatch 0 1) := by
  have h := claim10_missing_records_key noRecApi [("x", Json.arr [Json.null])] [Json.null] none 1
    [[("a", Json.null)]] (fun p => rfl) rfl (by norm_num)
  exact ⟨h.1, by simpa using h.2.1 (by simp)⟩

end VGS
